import Mathlib

/-!
Verification of the ws-sync client core: the WebSocket `Session`
(src/session.ts) and the per-key synced-state coordinator (the reducer
module). The embedding is shallow: JavaScript values are modelled by an
inductive JSON-like type (extended with a constructor for raw binary
payloads), incoming text frames are modelled after JSON.parse as a type
string plus a data value, and every call the session makes into an
external collaborator (the socket, the toast notification sink, the
connection-change observer, the timer facility, a registered handler
callback, the console) is recorded as one element of an output list in
the order the source makes the calls.
-/

/-- A JavaScript value as it flows through the session: the JSON
constructors plus raw binary payloads (ArrayBuffer contents as a byte
list). Objects are ordered field lists, as JavaScript objects are. -/
inductive JValue where
  | null
  | bool (b : Bool)
  | num (n : Int)
  | str (s : String)
  | arr (items : List JValue)
  | obj (fields : List (String × JValue))
  | bin (bytes : List Nat)
  deriving Repr

/-- Property read on an object value, o[k]; none models undefined. -/
def jGet : JValue → String → Option JValue
  | .obj fields, k => fields.lookup k
  | _, _ => none

/-- Read a string property, defaulting to the empty string. Used where the
source interpolates or indexes with a value that is a string in every
well-formed frame. -/
def jGetStr (j : JValue) (k : String) : String :=
  match jGet j k with
  | some (.str s) => s
  | _ => ""

/-- Template-literal rendering of a value; only the string case matters for
the frames the session receives. -/
def jDisplay : JValue → String
  | .str s => s
  | _ => ""

/-- The items of an array value. -/
def jItems : JValue → List JValue
  | .arr items => items
  | _ => []

/-- Assignment o[k] = v on a JavaScript object field list: an existing
binding keeps its position and takes the new value, a fresh key is
appended (JavaScript property update and insertion order). -/
def objSetKey : List (String × JValue) → String → JValue → List (String × JValue)
  | [], k, v => [(k, v)]
  | (k1, v1) :: rest, k, v =>
      if k1 = k then (k, v) :: rest else (k1, v1) :: objSetKey rest k v

/-- JavaScript object spread of a value into an existing field list, as in
a literal that starts from the base fields and then spreads the value.
Spreading anything that is not an object contributes no fields (the index
spreading of strings is not exercised anywhere in the source: every call
site spreads a metadata object). -/
def objSpread (base : List (String × JValue)) : Option JValue → List (String × JValue)
  | some (.obj ms) => ms.foldl (fun acc kv => objSetKey acc kv.1 kv.2) base
  | _ => base

/-- Split a character list at every slash. -/
def splitSlash : List Char → List Char → List String
  | [], cur => [String.mk cur.reverse]
  | c :: rest, cur =>
      if c = '/' then String.mk cur.reverse :: splitSlash rest []
      else splitSlash rest (c :: cur)

/-- The segments of a slash-delimited JSON pointer: the leading empty
segment of a path that starts with a slash is dropped. -/
def pathSegments (path : String) : List String :=
  match splitSlash path.toList [] with
  | "" :: rest => rest
  | segs => segs

/-- Parse a decimal array index from the characters of a segment. -/
def parseIndex : List Char → Nat → Option Nat
  | [], acc => some acc
  | c :: rest, acc =>
      if c.isDigit then parseIndex rest (acc * 10 + (c.toNat - 48)) else none

/-- An array-index pointer segment; the empty segment is not an index. -/
def segToIndex (seg : String) : Option Nat :=
  match seg.toList with
  | [] => none
  | cs => parseIndex cs 0

/-- Modelled from the external fast-json-patch dependency: apply one patch
operation (replace, add or remove, the operation set the spec names) at a
pointer path given by its segments. A path that does not resolve leaves
the document unchanged (the library would raise there; no source call
site applies a patch to a missing path). -/
def applyAtPath : JValue → List String → String → JValue → JValue
  | doc, [], op, value => if op = "remove" then doc else value
  | .obj fields, [seg], op, value =>
      if op = "remove" then .obj (fields.filter fun kv => kv.1 ≠ seg)
      else .obj (objSetKey fields seg value)
  | .arr items, [seg], op, value =>
      match segToIndex seg with
      | some i =>
          if op = "remove" then .arr (items.eraseIdx i)
          else if op = "add" then .arr (items.take i ++ [value] ++ items.drop i)
          else .arr (items.set i value)
      | none => .arr items
  | .obj fields, seg :: rest, op, value =>
      match fields.lookup seg with
      | some child => .obj (objSetKey fields seg (applyAtPath child rest op value))
      | none => .obj fields
  | .arr items, seg :: rest, op, value =>
      match segToIndex seg with
      | some i =>
          match items.get? i with
          | some child => .arr (items.set i (applyAtPath child rest op value))
          | none => .arr items
      | none => .arr items
  | doc, _ :: _, _, _ => doc

/-- Modelled from the external fast-json-patch dependency: the reduce step
the wrapped reducer folds over a patch. The operation object carries its
kind under the key op; unrecognised kinds leave the document unchanged. -/
def applyReducer (doc : JValue) (operation : JValue) : JValue :=
  match jGet operation "op", jGet operation "path" with
  | some (.str opKind), some (.str path) =>
      if opKind = "replace" ∨ opKind = "add" ∨ opKind = "remove" then
        applyAtPath doc (pathSegments path) opKind ((jGet operation "value").getD .null)
      else doc
  | _, _ => doc

mutual

/-- Modelled from the external fast-json-patch dependency: a structural
deep clone of a value. -/
def deepClone : JValue → JValue
  | .null => .null
  | .bool b => .bool b
  | .num n => .num n
  | .str s => .str s
  | .bin bytes => .bin bytes
  | .arr items => .arr (deepCloneList items)
  | .obj fields => .obj (deepCloneFields fields)

/-- Clone of every item of an array. -/
def deepCloneList : List JValue → List JValue
  | [] => []
  | x :: xs => deepClone x :: deepCloneList xs

/-- Clone of every field of an object. -/
def deepCloneFields : List (String × JValue) → List (String × JValue)
  | [] => []
  | (k, v) :: rest => (k, deepClone v) :: deepCloneFields rest

end

mutual

/-- On pure values the structural clone is the identical tree. -/
theorem deepClone_eq : ∀ j, deepClone j = j
  | .null => rfl
  | .bool _ => rfl
  | .num _ => rfl
  | .str _ => rfl
  | .bin _ => rfl
  | .arr items => by rw [deepClone, deepCloneList_eq]
  | .obj fields => by rw [deepClone, deepCloneFields_eq]

theorem deepCloneList_eq : ∀ xs, deepCloneList xs = xs
  | [] => rfl
  | x :: xs => by rw [deepCloneList, deepClone_eq, deepCloneList_eq]

theorem deepCloneFields_eq : ∀ fs, deepCloneFields fs = fs
  | [] => rfl
  | (k, v) :: rest => by rw [deepCloneFields, deepClone_eq, deepCloneFields_eq]

end

/-- WebSocket.CONNECTING. -/
def wsCONNECTING : Nat := 0

/-- WebSocket.OPEN. -/
def wsOPEN : Nat := 1

/-- WebSocket.CLOSED. -/
def wsCLOSED : Nat := 3

/-- One observable call the session makes into an external collaborator:
a registered event handler, the catch-all binary handler, the toast
notification sink (kind, message, and the duration option when one is
passed), the socket (text write, binary write, close), the
connection-change observer, the timer facility (delay in milliseconds),
socket construction, the file-save path of a download frame, or the
console log. -/
inductive Output where
  | handlerCall (event : String) (arg : JValue)
  | binaryHandlerCall (arg : JValue)
  | toast (kind : String) (message : String) (duration : Option Nat)
  | wsSend (frame : JValue)
  | wsSendBytes (bytes : List Nat)
  | wsClose
  | observerCall (connected : Bool)
  | scheduleRetry (delayMs : Nat)
  | newWebSocket (url : String)
  | download (filename : String) (base64 : String)
  | log (message : String)
  deriving Repr

/-- Recognise a transport write (text or binary frame). -/
def Output.isWrite : Output → Bool
  | .wsSend _ => true
  | .wsSendBytes _ => true
  | _ => false

/-- Recognise a call to the toast notification sink. -/
def Output.isToast : Output → Bool
  | .toast _ _ _ => true
  | _ => false

/-- Recognise an invocation of a registered or catch-all handler. -/
def Output.isHandlerCall : Output → Bool
  | .handlerCall _ _ => true
  | .binaryHandlerCall _ => true
  | _ => false

/-- The retry delays scheduled in a list of outputs. -/
def scheduledDelays (outs : List Output) : List Nat :=
  outs.filterMap fun o =>
    match o with
    | .scheduleRetry d => some d
    | _ => none

/-- The state of a Session (src/session.ts). The socket collaborator is
modelled by its readyState, none while no socket object is attached; the
handler closures of the two registries are modelled by their key sets,
with invocations reported as outputs; hasBinaryHandler models the
nullable catch-all callback, hasRetryTimeout the stored timer handle,
binData the metadata slot for the next binary message. -/
structure Session where
  url : String
  label : String
  minRetryInterval : Nat
  maxRetryInterval : Nat
  currentRetryInterval : Nat
  isConnected : Bool
  eventHandlers : List String
  initHandlers : List String
  hasBinaryHandler : Bool
  binData : Option JValue
  hasRetryTimeout : Bool
  autoReconnect : Bool
  readyState : Option Nat
  deriving Repr

/-- The session constructor with the source defaults: label Server,
minRetryInterval 250, maxRetryInterval 10000, currentRetryInterval
starting at minRetryInterval, no socket, empty registries, and the
autoReconnect field initialised true. -/
def Session.create (url : String) : Session :=
  { url := url
    label := "Server"
    minRetryInterval := 250
    maxRetryInterval := 10000
    currentRetryInterval := 250
    isConnected := false
    eventHandlers := []
    initHandlers := []
    hasBinaryHandler := false
    binData := none
    hasRetryTimeout := false
    autoReconnect := true
    readyState := none }

/-- The abstract connection state of the spec data model, derived from the
socket: Connected while an OPEN socket is attached, Connecting while the
socket is still CONNECTING, otherwise Disconnected. -/
inductive ConnectionState where
  | Disconnected
  | Connecting
  | Connected
  deriving DecidableEq, Repr

/-- Derive the abstract connection state from the attached socket. -/
def Session.connectionState (s : Session) : ConnectionState :=
  match s.readyState with
  | none => .Disconnected
  | some r =>
      if r = wsCONNECTING then .Connecting
      else if r = wsOPEN then .Connected
      else .Disconnected

/-- registerEvent: a second registration under a live key is a hard
failure (the source throws before touching the registry, so an error
value carries no changed session); otherwise the handler is recorded
under the key. -/
def Session.registerEvent (s : Session) (event : String) : Except String Session :=
  if s.eventHandlers.contains event then
    .error ("already subscribed to " ++ event)
  else
    .ok { s with eventHandlers := s.eventHandlers ++ [event] }

/-- deregisterEvent: removing an unregistered key is a hard failure (the
source throws before touching the registry); otherwise the key is
removed. -/
def Session.deregisterEvent (s : Session) (event : String) : Except String Session :=
  if s.eventHandlers.contains event then
    .ok { s with eventHandlers := s.eventHandlers.erase event }
  else
    .error ("not subscribed to " ++ event)

/-- registerInit, same contract as registerEvent on the init registry. -/
def Session.registerInit (s : Session) (key : String) : Except String Session :=
  if s.initHandlers.contains key then
    .error "already registered"
  else
    .ok { s with initHandlers := s.initHandlers ++ [key] }

/-- deregisterInit, same contract as deregisterEvent on the init
registry. -/
def Session.deregisterInit (s : Session) (key : String) : Except String Session :=
  if s.initHandlers.contains key then
    .ok { s with initHandlers := s.initHandlers.erase key }
  else
    .error "not registered"

/-- The serialized text frame of an event type and payload, as the source
builds it for JSON.stringify. -/
def mkFrame (event : String) (data : JValue) : JValue :=
  .obj [("type", .str event), ("data", data)]

/-- send: when the socket is not in readyState OPEN, report through the
notification sink and return without transmitting (the source neither
buffers nor retries, and mutates nothing); otherwise write exactly one
text frame. -/
def Session.send (s : Session) (event : String) (data : JValue) : List Output :=
  if s.readyState ≠ some wsOPEN then
    [.toast "error" (s.label ++ ": Sending while not connected!") none]
  else
    [.wsSend (mkFrame event data)]

/-- sendBinary: same connectivity guard as send; when connected, write the
announcing metadata frame and then the raw bytes. -/
def Session.sendBinary (s : Session) (event : String) (metadata : JValue) (data : List Nat) :
    List Output :=
  if s.readyState ≠ some wsOPEN then
    [.toast "error" (s.label ++ ": Sending while not connected!") none]
  else
    [.wsSend (mkFrame "_BIN_META" (.obj [("type", .str event), ("metadata", metadata)])),
     .wsSendBytes data]

/-- connect(): announce through the sink, attach a fresh socket (readyState
CONNECTING) and re-enable auto-reconnect. The cleanup closure the source
returns is a disconnect thunk and is not modelled separately. -/
def Session.connect (s : Session) : Session × List Output :=
  ({ s with readyState := some wsCONNECTING, autoReconnect := true },
   [.toast "info" ("Connecting to " ++ s.label ++ "...") none, .newWebSocket s.url])

/-- The ws.onopen handler: success toast, isConnected set, observer
notified with true, and the retry interval reset to the minimum. The
socket is OPEN when the event fires. -/
def Session.onOpen (s : Session) : Session × List Output :=
  ({ s with isConnected := true
            readyState := some wsOPEN
            currentRetryInterval := s.minRetryInterval },
   [.toast "success" ("Connected to " ++ s.label ++ "!") none, .observerCall true])

/-- The ws.onclose handler: isConnected cleared (the socket is CLOSED when
the event fires) and the observer notified with false; while
autoReconnect is enabled, a retry is scheduled after the current interval
and only afterwards is the interval doubled and clamped to the maximum;
with autoReconnect disabled only the warning toast is emitted. -/
def Session.onClose (s : Session) : Session × List Output :=
  if s.autoReconnect then
    ({ s with isConnected := false
              readyState := some wsCLOSED
              hasRetryTimeout := true
              currentRetryInterval := min (s.currentRetryInterval * 2) s.maxRetryInterval },
     [.observerCall false,
      .toast "warning"
        ("Disconnected from " ++ s.label ++ ": Retrying in "
          ++ toString s.currentRetryInterval ++ " ms...") none,
      .scheduleRetry s.currentRetryInterval])
  else
    ({ s with isConnected := false, readyState := some wsCLOSED },
     [.observerCall false,
      .toast "warning" ("Disconnected from " ++ s.label ++ "!") none])

/-- The body of the scheduled retry callback: it re-checks that the
session still has a url and is still not connected before calling connect
again, and otherwise does nothing. -/
def Session.fireRetryTimer (s : Session) : Session × List Output :=
  if s.url ≠ "" ∧ s.isConnected = false then s.connect else (s, [])

/-- disconnect(): disable auto-reconnect, close and detach the socket (the
source nulls the socket callbacks before the close event can be
delivered, so onClose never runs for this socket and isConnected is not
reset here), notify the observer with false, and cancel a pending retry
timer. -/
def Session.disconnect (s : Session) : Session × List Output :=
  ({ s with autoReconnect := false, readyState := none, hasRetryTimeout := false },
   (if s.readyState.isSome then [Output.wsClose] else []) ++ [.observerCall false])

/-- One incoming MessageEvent: a text frame modelled after JSON.parse as
its type string and data value, or a binary frame as raw bytes. -/
inductive Incoming where
  | text (type : String) (data : JValue)
  | binary (bytes : List Nat)

/-- handleReceiveEvent (src/session.ts): route one incoming frame. A
_DISCONNECT frame tears the session down and surfaces the reason as a
loading toast with a duration of 10000000 milliseconds; a _DOWNLOAD frame
hands the embedded base64 payload and filename to the file-save path (the
asynchronous decode chain collapses to one output); a _BIN_META frame
stores its data in the pending-binary slot, warning when it overwrites;
any other type is dispatched to its registered handler or logged. A
binary frame is paired with the pending slot when one is occupied (the
handler registered under the slot type receives the payload under the
data key with the slot metadata spread over it, and the slot is cleared
whether or not such a handler exists), otherwise it goes to the catch-all
binary handler, otherwise it is logged and dropped. -/
def Session.handleReceiveEvent (s : Session) (e : Incoming) : Session × List Output :=
  match e with
  | .text ty data =>
      if ty = "_DISCONNECT" then
        let r := s.disconnect
        (r.1, r.2 ++ [.toast "loading" (s.label ++ ": " ++ jDisplay data) (some 10000000)])
      else if ty = "_DOWNLOAD" then
        (s, [.download (jGetStr data "filename") (jGetStr data "data")])
      else if ty = "_BIN_META" then
        ({ s with binData := some data },
         if s.binData.isSome then [.log "overwriting bytes metadata"] else [])
      else if s.eventHandlers.contains ty then
        (s, [.handlerCall ty data])
      else
        (s, [.log ("unhandled event: " ++ ty)])
  | .binary bytes =>
      match s.binData with
      | some meta =>
          ({ s with binData := none },
           if s.eventHandlers.contains (jGetStr meta "type") then
             [.handlerCall (jGetStr meta "type")
               (.obj (objSpread [("data", .bin bytes)] (jGet meta "metadata")))]
           else
             [.log ("no handler for binary event: " ++ jGetStr meta "type")])
      | none =>
          if s.hasBinaryHandler then (s, [.binaryHandlerCall (.bin bytes)])
          else (s, [.log "unhandled binary message"])

/-- One failed connection attempt: connect and then the close event of
that socket, the open event never firing. -/
def failedAttempt (s : Session) : Session :=
  (Session.onClose (Session.connect s).1).1

/-- The session state after k consecutive failed attempts. -/
def afterFailures (s : Session) : Nat → Session
  | 0 => s
  | k + 1 => failedAttempt (afterFailures s k)

/-- The outputs of the close handler of the k-th failed attempt, counted
from 1. -/
def failureOutputs (s : Session) (k : Nat) : List Output :=
  (Session.onClose (Session.connect (afterFailures s (k - 1))).1).2

/-- Derived event name for a full snapshot of the key. -/
def setEvent (key : String) : String := "_SET:" ++ key

/-- Derived event name for a snapshot request. -/
def getEvent (key : String) : String := "_GET:" ++ key

/-- Derived event name for an incremental patch of the key. -/
def patchEvent (key : String) : String := "_PATCH:" ++ key

/-- Derived event name for a forwarded action on the key. -/
def actionEvent (key : String) : String := "_ACTION:" ++ key

/-- Derived event name for starting a task on the key. -/
def taskStartEvent (key : String) : String := "_TASK_START:" ++ key

/-- Derived event name for cancelling a task on the key. -/
def taskCancelEvent (key : String) : String := "_TASK_CANCEL:" ++ key

namespace Synced

/-- A dispatched action: its type tag and the payload the wire actions
carry under the data property. -/
structure Action where
  type : String
  data : JValue

/-- One queued side effect of a transition: a deferred send of a patch or
of an action for the key, executed after the state commit. -/
inductive Effect where
  | sendPatch (patch : JValue)
  | sendAction (action : JValue)

/-- wrappedReducer: the reducer over the state paired with
the effect queue. The SET branch replaces the state wholesale with the
action data and returns an empty queue; the PATCH branch folds the patch
operations with applyReducer over a deep clone of the state, again with
an empty queue (a non-array patch would throw in the source and is left
as the unchanged state here, no call site sends one); any other action
type leaves the state unchanged when no synced reducer is configured, and
otherwise defers to the configured reducer, which stands for the user
transition function together with the immer produceWithPatches machinery
and the sync and delegate capabilities, whose internals no claim touches. -/
def wrappedReducer (key : String)
    (syncedReducer : Option (JValue → Action → JValue × List Effect))
    (sp : JValue × List Effect) (action : Action) : JValue × List Effect :=
  if action.type = setEvent key then
    (action.data, [])
  else if action.type = patchEvent key then
    match action.data with
    | .arr ops => (ops.foldl applyReducer (deepClone sp.1), [])
    | _ => (sp.1, [])
  else
    match syncedReducer with
    | none => (sp.1, [])
    | some f => f sp.1 action

/-- The per-key synced-state coordinator: the logical key, the optionally
configured synced reducer, the current state value, and the pending
effect queue of the state holder. -/
structure Coordinator where
  key : String
  syncedReducer : Option (JValue → Action → JValue × List Effect)
  state : JValue
  effects : List Effect

/-- dispatch: run wrappedReducer on the held pair and store the next state
and effect queue. -/
def Coordinator.dispatch (c : Coordinator) (action : Action) : Coordinator :=
  let r := wrappedReducer c.key c.syncedReducer (c.state, c.effects) action
  { c with state := r.1, effects := r.2 }

/-- The single-operation replace patch a generated setter or syncer builds
for a top-level field. -/
def accessorPatch (attr : String) (v : JValue) : JValue :=
  .arr [.obj [("op", .str "replace"), ("path", .str ("/" ++ attr)), ("value", v)]]

/-- The generated setter for a field: dispatch the replace patch locally,
nothing is transmitted. -/
def Coordinator.setter (c : Coordinator) (attr : String) (v : JValue) : Coordinator :=
  c.dispatch { type := patchEvent c.key, data := accessorPatch attr v }

/-- The generated syncer for a field: the same local patch dispatch, and
then the patch is sent to the remote as one PATCH frame through the
session. -/
def Coordinator.syncer (c : Coordinator) (s : Session) (attr : String) (v : JValue) :
    Coordinator × List Output :=
  (c.dispatch { type := patchEvent c.key, data := accessorPatch attr v },
   s.send (patchEvent c.key) (accessorPatch attr v))

/-- sendState: send a snapshot as one SET frame through the session. -/
def Coordinator.sendState (c : Coordinator) (s : Session) : List Output :=
  s.send (setEvent c.key) c.state

/-- The handler the coordinator registers under its GET event: reply with
the current snapshot via sendState; the closure dispatches nothing, so
the coordinator is untouched. -/
def Coordinator.onGetEvent (c : Coordinator) (s : Session) : Coordinator × List Output :=
  (c, c.sendState s)

end Synced

lemma afterFailures_interval (s : Session) (hcur : s.currentRetryInterval = 250)
    (hmin : s.minRetryInterval = 250) (hmax : s.maxRetryInterval = 10000) :
    ∀ k : Nat, (afterFailures s k).currentRetryInterval = min (250 * 2 ^ k) 10000 ∧
      (afterFailures s k).maxRetryInterval = 10000 ∧
      (afterFailures s k).minRetryInterval = 250 := by
  intro k
  induction k with
  | zero =>
      refine ⟨?_, ?_, ?_⟩
      · simp [afterFailures, hcur]
      · simp [afterFailures, hmax]
      · simp [afterFailures, hmin]
  | succ k ih =>
      obtain ⟨ih1, ih2, ih3⟩ := ih
      simp only [afterFailures, failedAttempt, Session.connect, Session.onClose]
      simp only [ih1, ih2, ih3]
      have h2 : (250 : Nat) * 2 ^ (k + 1) = 250 * 2 ^ k * 2 := by ring
      refine ⟨?_, by simp, by simp⟩
      simp only [if_pos]
      omega

/-- Claim C1 (corrected). With minRetryInterval 250 and maxRetryInterval
10000, after k consecutive failed connect attempts the delay scheduled at
the k-th failure for the next retry equals min(250 * 2^(k-1), 10000): the
source schedules the timer with the current interval and doubles it only
afterwards, so currentRetryInterval after the k-th failure equals
min(250 * 2^k, 10000) and that is the delay the NEXT failure would
schedule. One successful connect (onopen) resets currentRetryInterval to
the minimum, and 250 ≤ currentRetryInterval ≤ 10000 holds along the whole
failure trajectory. -/
theorem backoff_delay_law (s : Session) (k : Nat) (hcur : s.currentRetryInterval = 250)
    (hmin : s.minRetryInterval = 250) (hmax : s.maxRetryInterval = 10000) (hk : 1 ≤ k) :
    scheduledDelays (failureOutputs s k) = [min (250 * 2 ^ (k - 1)) 10000] ∧
    (afterFailures s k).currentRetryInterval = min (250 * 2 ^ k) 10000 ∧
    250 ≤ (afterFailures s k).currentRetryInterval ∧
    (afterFailures s k).currentRetryInterval ≤ 10000 ∧
    (Session.onOpen (afterFailures s k)).1.currentRetryInterval = 250 := by
  have hmain := afterFailures_interval s hcur hmin hmax
  have hpow : (1 : Nat) ≤ 2 ^ k := Nat.one_le_two_pow
  refine ⟨?_, (hmain k).1, ?_, ?_, ?_⟩
  · simp only [failureOutputs, Session.connect, Session.onClose, scheduledDelays]
    simp [(hmain (k - 1)).1]
  · rw [(hmain k).1]; omega
  · rw [(hmain k).1]; omega
  · simp [Session.onOpen, (hmain k).2.2]

/-- Claim C1 witness: the corrected law applied at k = 2 on a fresh
default-configured session. -/
theorem backoff_delay_law_witness :
    (Session.create "u").currentRetryInterval = 250 ∧
    (Session.create "u").minRetryInterval = 250 ∧
    (Session.create "u").maxRetryInterval = 10000 ∧ (1 : Nat) ≤ 2 ∧
    (scheduledDelays (failureOutputs (Session.create "u") 2) =
        [min (250 * 2 ^ (2 - 1)) 10000] ∧
      (afterFailures (Session.create "u") 2).currentRetryInterval =
        min (250 * 2 ^ 2) 10000 ∧
      250 ≤ (afterFailures (Session.create "u") 2).currentRetryInterval ∧
      (afterFailures (Session.create "u") 2).currentRetryInterval ≤ 10000 ∧
      (Session.onOpen (afterFailures (Session.create "u") 2)).1.currentRetryInterval = 250) :=
  ⟨rfl, rfl, rfl, by norm_num,
   backoff_delay_law (Session.create "u") 2 rfl rfl rfl (by norm_num)⟩

/-- Claim C1 counterexample: on a fresh default session, the delay
scheduled at the first failed attempt (k = 1) is 250 ms, while the claim
as stated predicts min(250 * 2^1, 10000) = 500 ms. -/
theorem backoff_first_delay_counterexample :
    scheduledDelays (failureOutputs (Session.create "ws://a") 1) = [250] ∧
    min (250 * 2 ^ 1) 10000 = 500 ∧ (250 : Nat) ≠ 500 := by
  refine ⟨?_, by norm_num, by norm_num⟩
  rfl

/-- Claim C4: for every key K, a second registerEvent(K) before a matching
deregisterEvent(K) fails hard (the source throws before mutating, so the
error carries no changed registry); deregisterEvent(K) without a prior
registration fails hard the same way; and the sequence register,
deregister, register succeeds, the deregistration restoring the original
registry. -/
theorem event_registry_contract (s : Session) (K : String) :
    (s.eventHandlers.contains K = true →
      Session.registerEvent s K = .error ("already subscribed to " ++ K)) ∧
    (s.eventHandlers.contains K = false →
      Session.deregisterEvent s K = .error ("not subscribed to " ++ K)) ∧
    (s.eventHandlers.contains K = false →
      ∃ s1 s2 s3 : Session,
        Session.registerEvent s K = .ok s1 ∧
        Session.deregisterEvent s1 K = .ok s2 ∧
        Session.registerEvent s2 K = .ok s3 ∧
        s2.eventHandlers = s.eventHandlers) := by
  refine ⟨?_, ?_, ?_⟩
  · intro h
    have hm : K ∈ s.eventHandlers := by simpa using h
    simp [Session.registerEvent, hm]
  · intro h
    have hm : K ∉ s.eventHandlers := by simpa using h
    simp [Session.deregisterEvent, hm]
  · intro h
    have hm : K ∉ s.eventHandlers := by simpa using h
    have he : (s.eventHandlers ++ [K]).erase K = s.eventHandlers := by
      rw [List.erase_append_right _ hm]
      simp
    refine ⟨{ s with eventHandlers := s.eventHandlers ++ [K] },
            { s with eventHandlers := (s.eventHandlers ++ [K]).erase K },
            { s with eventHandlers := (s.eventHandlers ++ [K]).erase K ++ [K] },
            ?_, ?_, ?_, he⟩
    · simp [Session.registerEvent, hm]
    · simp [Session.deregisterEvent]
    · simp [Session.registerEvent, he, hm]

/-- Claim C4 witness: the contract applied on a session that has the key
registered (duplicate registration fails), and on a fresh session (orphan
deregistration fails, and register, deregister, register succeeds). -/
theorem event_registry_contract_witness :
    Session.registerEvent { Session.create "u" with eventHandlers := ["k"] } "k" =
      .error ("already subscribed to " ++ "k") ∧
    Session.deregisterEvent (Session.create "u") "k" =
      .error ("not subscribed to " ++ "k") ∧
    (∃ s1 s2 s3 : Session,
      Session.registerEvent (Session.create "u") "k" = .ok s1 ∧
      Session.deregisterEvent s1 "k" = .ok s2 ∧
      Session.registerEvent s2 "k" = .ok s3 ∧
      s2.eventHandlers = (Session.create "u").eventHandlers) :=
  ⟨(event_registry_contract { Session.create "u" with eventHandlers := ["k"] } "k").1 rfl,
   (event_registry_contract (Session.create "u") "k").2.1 rfl,
   (event_registry_contract (Session.create "u") "k").2.2 rfl⟩

lemma connectionState_connected_iff (s : Session) :
    s.connectionState = ConnectionState.Connected ↔ s.readyState = some wsOPEN := by
  cases h : s.readyState with
  | none => simp [Session.connectionState, h]
  | some r =>
      simp only [Session.connectionState, h]
      split_ifs with h0 h1
      · simp [h0, wsCONNECTING, wsOPEN]
      · simp [h1]
      · simp [h1]

/-- Claim C5: a send or sendBinary made while the connection state is not
Connected performs zero transport writes, makes exactly one error call to
the notification sink, and returns having mutated nothing (the embedding
of both operations is a pure output list) without buffering or retrying
the message: the outputs are exactly one error toast. -/
theorem send_disconnected_drops (s : Session) (event : String) (payload : JValue)
    (metadata : JValue) (bytes : List Nat)
    (h : s.connectionState ≠ ConnectionState.Connected) :
    Session.send s event payload =
      [Output.toast "error" (s.label ++ ": Sending while not connected!") none] ∧
    Session.sendBinary s event metadata bytes =
      [Output.toast "error" (s.label ++ ": Sending while not connected!") none] := by
  have hrs : s.readyState ≠ some wsOPEN := fun hh =>
    h ((connectionState_connected_iff s).mpr hh)
  exact ⟨by simp [Session.send, hrs], by simp [Session.sendBinary, hrs]⟩

/-- Claim C5 witness: a fresh session has no socket, so it is not
Connected, and both operations produce exactly the one error toast. -/
theorem send_disconnected_drops_witness :
    (Session.create "u").connectionState ≠ ConnectionState.Connected ∧
    (Session.send (Session.create "u") "e" .null =
      [Output.toast "error" ((Session.create "u").label ++ ": Sending while not connected!")
        none] ∧
    Session.sendBinary (Session.create "u") "e" .null [1] =
      [Output.toast "error" ((Session.create "u").label ++ ": Sending while not connected!")
        none]) :=
  ⟨by decide,
   send_disconnected_drops (Session.create "u") "e" .null .null [1] (by decide)⟩

/-- Claim C9: the scheduled retry callback re-checks the connection before
acting; when the session has become connected during the wait the timer
fire changes nothing and performs no connect call (no socket is
constructed, no output at all), so a manual reconnect racing with a timer
fire never produces a duplicate connection attempt. -/
theorem retry_fire_skips_when_connected (s : Session) (h : s.isConnected = true) :
    Session.fireRetryTimer s = (s, []) := by
  simp [Session.fireRetryTimer, h]

/-- Claim C9 witness: the guard applied to a connected session. -/
theorem retry_fire_skips_when_connected_witness :
    ({ Session.create "u" with isConnected := true }).isConnected = true ∧
    Session.fireRetryTimer { Session.create "u" with isConnected := true } =
      ({ Session.create "u" with isConnected := true }, []) :=
  ⟨rfl, retry_fire_skips_when_connected _ rfl⟩

/-- Claim C3: with a handler registered under key T, a _BIN_META frame
announcing type T with metadata carrying id 1 produces no handler call of
its own and fills the pending-binary slot; the next binary frame B then
invokes exactly the handler registered under T, once, with the payload
under the data key and the metadata spread over it, and clears the slot.
A binary frame arriving with no pending metadata and no catch-all binary
handler invokes zero handlers: it is only logged and dropped, the session
unchanged. -/
theorem binary_pairing (s : Session) (B : List Nat)
    (hreg : s.eventHandlers.contains "T" = true)
    (hslot : s.binData = none)
    (hnb : s.hasBinaryHandler = false) :
    (Session.handleReceiveEvent s
        (.text "_BIN_META" (.obj [("type", .str "T"), ("metadata", .obj [("id", .num 1)])]))).2
      = [] ∧
    (Session.handleReceiveEvent s
        (.text "_BIN_META"
          (.obj [("type", .str "T"), ("metadata", .obj [("id", .num 1)])]))).1.binData
      = some (.obj [("type", .str "T"), ("metadata", .obj [("id", .num 1)])]) ∧
    (Session.handleReceiveEvent
        (Session.handleReceiveEvent s
          (.text "_BIN_META" (.obj [("type", .str "T"), ("metadata", .obj [("id", .num 1)])]))).1
        (.binary B)).2
      = [Output.handlerCall "T" (.obj [("data", .bin B), ("id", .num 1)])] ∧
    (Session.handleReceiveEvent
        (Session.handleReceiveEvent s
          (.text "_BIN_META" (.obj [("type", .str "T"), ("metadata", .obj [("id", .num 1)])]))).1
        (.binary B)).1.binData = none ∧
    Session.handleReceiveEvent s (.binary B) = (s, [Output.log "unhandled binary message"]) := by
  have h1 : Session.handleReceiveEvent s
      (.text "_BIN_META" (.obj [("type", .str "T"), ("metadata", .obj [("id", .num 1)])]))
      = ({ s with
            binData := some (.obj [("type", .str "T"), ("metadata", .obj [("id", .num 1)])]) },
         []) := by
    simp [Session.handleReceiveEvent, hslot]
  have h2 : Session.handleReceiveEvent
      { s with binData := some (JValue.obj [("type", .str "T"),
          ("metadata", .obj [("id", .num 1)])]) }
      (.binary B)
      = ({ s with binData := none },
         [Output.handlerCall "T" (.obj [("data", .bin B), ("id", .num 1)])]) := by
    have hmem : "T" ∈ s.eventHandlers := by simpa using hreg
    simp [Session.handleReceiveEvent, jGetStr, jGet, objSpread, objSetKey, List.lookup, hmem]
  have h3 : Session.handleReceiveEvent s (.binary B)
      = (s, [Output.log "unhandled binary message"]) := by
    simp [Session.handleReceiveEvent, hslot, hnb]
  exact ⟨by rw [h1], by rw [h1], by rw [h1, h2], by rw [h1, h2], h3⟩

/-- Claim C3 witness: the pairing applied on a concrete session that has a
handler under T, an empty slot and no catch-all handler, with payload
[9, 8]. -/
theorem binary_pairing_witness :
    ({ Session.create "u" with eventHandlers := ["T"] }).eventHandlers.contains "T" = true ∧
    ({ Session.create "u" with eventHandlers := ["T"] }).binData = none ∧
    ({ Session.create "u" with eventHandlers := ["T"] }).hasBinaryHandler = false ∧
    ((Session.handleReceiveEvent { Session.create "u" with eventHandlers := ["T"] }
        (.text "_BIN_META" (.obj [("type", .str "T"), ("metadata", .obj [("id", .num 1)])]))).2
      = [] ∧
    (Session.handleReceiveEvent { Session.create "u" with eventHandlers := ["T"] }
        (.text "_BIN_META"
          (.obj [("type", .str "T"), ("metadata", .obj [("id", .num 1)])]))).1.binData
      = some (.obj [("type", .str "T"), ("metadata", .obj [("id", .num 1)])]) ∧
    (Session.handleReceiveEvent
        (Session.handleReceiveEvent { Session.create "u" with eventHandlers := ["T"] }
          (.text "_BIN_META" (.obj [("type", .str "T"), ("metadata", .obj [("id", .num 1)])]))).1
        (.binary [9, 8])).2
      = [Output.handlerCall "T" (.obj [("data", .bin [9, 8]), ("id", .num 1)])] ∧
    (Session.handleReceiveEvent
        (Session.handleReceiveEvent { Session.create "u" with eventHandlers := ["T"] }
          (.text "_BIN_META" (.obj [("type", .str "T"), ("metadata", .obj [("id", .num 1)])]))).1
        (.binary [9, 8])).1.binData = none ∧
    Session.handleReceiveEvent { Session.create "u" with eventHandlers := ["T"] }
        (.binary [9, 8])
      = ({ Session.create "u" with eventHandlers := ["T"] },
         [Output.log "unhandled binary message"])) :=
  ⟨rfl, rfl, rfl,
   binary_pairing { Session.create "u" with eventHandlers := ["T"] } [9, 8] rfl rfl rfl⟩

/-- Claim C6: receiving a _DISCONNECT frame carrying a reason leaves the
session with no socket (connection state Disconnected), auto-reconnect
disabled and no pending retry timer; among the emitted collaborator calls
there is exactly one toast, the loading notification carrying the
server-supplied reason with the 10000000 ms duration the source passes to
keep it from dismissing. While auto-reconnect is disabled the close
handler schedules no retry, and only connect() re-enables it. -/
theorem disconnect_frame (s : Session) (reason : String) :
    (Session.handleReceiveEvent s (.text "_DISCONNECT" (.str reason))).1.connectionState
      = ConnectionState.Disconnected ∧
    (Session.handleReceiveEvent s (.text "_DISCONNECT" (.str reason))).1.autoReconnect
      = false ∧
    (Session.handleReceiveEvent s (.text "_DISCONNECT" (.str reason))).1.hasRetryTimeout
      = false ∧
    ((Session.handleReceiveEvent s (.text "_DISCONNECT" (.str reason))).2.filter
        Output.isToast)
      = [Output.toast "loading" (s.label ++ ": " ++ reason) (some 10000000)] ∧
    (∀ s2 : Session,
      scheduledDelays (Session.onClose { s2 with autoReconnect := false }).2 = []) ∧
    (∀ s3 : Session, (Session.connect s3).1.autoReconnect = true) := by
  refine ⟨?_, ?_, ?_, ?_, ?_, ?_⟩
  · simp [Session.handleReceiveEvent, Session.disconnect, Session.connectionState]
  · simp [Session.handleReceiveEvent, Session.disconnect]
  · simp [Session.handleReceiveEvent, Session.disconnect]
  · cases hrs : s.readyState <;>
      simp [Session.handleReceiveEvent, Session.disconnect, jDisplay, hrs, Output.isToast]
  · intro s2
    simp [Session.onClose, scheduledDelays]
  · intro s3
    simp [Session.connect]

lemma lookup_objSetKey : ∀ (fs : List (String × JValue)) (a k : String) (v : JValue),
    (objSetKey fs a v).lookup k = if k = a then some v else fs.lookup k
  | [], a, k, v => by
      by_cases h : k = a <;>
        simp [objSetKey, List.lookup, h, show ((k == a) = decide (k = a)) from rfl]
  | (k1, v1) :: rest, a, k, v => by
      by_cases h1 : k1 = a
      · subst h1
        by_cases h : k = k1 <;>
          simp [objSetKey, List.lookup, h, show ((k == k1) = decide (k = k1)) from rfl]
      · have ih := lookup_objSetKey rest a k v
        by_cases h : k = k1
        · subst h
          simp [objSetKey, h1, List.lookup,
            show ((k == k) = decide (k = k)) from rfl]
        · simp [objSetKey, h1, List.lookup, h, ih,
            show ((k == k1) = decide (k = k1)) from rfl]

lemma lookup_foldl_setKey : ∀ (ms base : List (String × JValue)) (k : String),
    (ms.foldl (fun acc kv => objSetKey acc kv.1 kv.2) base).lookup k
      = (ms.reverse.lookup k).or (base.lookup k)
  | [], base, k => by simp
  | (a, w) :: rest, base, k => by
      have ih := lookup_foldl_setKey rest (objSetKey base a w) k
      simp only [List.foldl_cons] at ih ⊢
      rw [ih, List.reverse_cons, lookup_objSetKey]
      induction rest.reverse with
      | nil =>
          by_cases h : k = a <;>
            simp [List.lookup, h, show ((k == a) = decide (k = a)) from rfl]
      | cons hd tl ih2 =>
          obtain ⟨k2, v2⟩ := hd
          by_cases h2 : k = k2 <;>
            simp [List.lookup, h2, ih2, show ((k == k2) = decide (k = k2)) from rfl]

/-- Claim C10 (implicit): when a binary frame is dispatched through a
pending _BIN_META slot, the handler argument is built with the payload
under the data key first and the slot metadata spread over it, so a
metadata object that itself carries a binding for the key data (its value
v at its last such binding, JavaScript objects holding each key once)
overrides the binary payload: the handler argument maps data to v and the
handler never receives the raw bytes under that key. When no handler is
registered under the slot target, the frame is dropped with only a log
entry: the catch-all binary handler is not consulted even when one is
registered. In both cases the slot is cleared. -/
theorem binary_metadata_overrides (s : Session) (B : List Nat)
    (ms : List (String × JValue)) (v : JValue)
    (hslot : s.binData = some (.obj [("type", .str "T"), ("metadata", .obj ms)]))
    (hv : ms.reverse.lookup "data" = some v) :
    (s.eventHandlers.contains "T" = true →
      ∃ fields, (Session.handleReceiveEvent s (.binary B)).2
          = [Output.handlerCall "T" (.obj fields)] ∧
        fields.lookup "data" = some v) ∧
    (Session.handleReceiveEvent s (.binary B)).1.binData = none ∧
    (s.eventHandlers.contains "T" = false →
      (Session.handleReceiveEvent s (.binary B)).2
        = [Output.log ("no handler for binary event: T")]) := by
  refine ⟨?_, ?_, ?_⟩
  · intro h
    have hmem : "T" ∈ s.eventHandlers := by simpa using h
    refine ⟨objSpread [("data", .bin B)] (some (.obj ms)), ?_, ?_⟩
    · simp [Session.handleReceiveEvent, hslot, jGetStr, jGet, List.lookup, hmem]
    · rw [show objSpread [("data", JValue.bin B)] (some (.obj ms))
          = ms.foldl (fun acc kv => objSetKey acc kv.1 kv.2) [("data", JValue.bin B)] from rfl,
        lookup_foldl_setKey, hv]
      rfl
  · simp [Session.handleReceiveEvent, hslot]
  · intro h
    have hmem : "T" ∉ s.eventHandlers := by simpa using h
    simp [Session.handleReceiveEvent, hslot, jGetStr, jGet, List.lookup, hmem]

/-- A concrete session whose slot metadata carries a binding for the key
data, used to witness the spread-override behaviour. -/
def overrideSlotSession : Session :=
  { Session.create "u" with
    eventHandlers := ["T"]
    binData := some (.obj [("type", .str "T"), ("metadata", .obj [("data", .str "x")])]) }

/-- Claim C10 witness: applied on a concrete session whose slot metadata
carries data mapped to the string x; the handler argument maps data to
that string, not to the payload bytes, and the slot is cleared. -/
theorem binary_metadata_overrides_witness :
    overrideSlotSession.binData
      = some (.obj [("type", JValue.str "T"),
          ("metadata", .obj [("data", .str "x")])]) ∧
    ([(("data" : String), JValue.str "x")].reverse).lookup "data" = some (JValue.str "x") ∧
    (∃ fields, (Session.handleReceiveEvent overrideSlotSession (.binary [1, 2])).2
        = [Output.handlerCall "T" (.obj fields)] ∧
      fields.lookup "data" = some (JValue.str "x")) ∧
    (Session.handleReceiveEvent overrideSlotSession (.binary [1, 2])).1.binData = none :=
  ⟨rfl, rfl,
   (binary_metadata_overrides overrideSlotSession [1, 2] [("data", .str "x")]
     (.str "x") rfl rfl).1 rfl,
   (binary_metadata_overrides overrideSlotSession [1, 2] [("data", .str "x")]
     (.str "x") rfl rfl).2.1⟩

lemma setEvent_ne_patchEvent (key : String) : setEvent key ≠ patchEvent key := by
  intro h
  have h2 : (setEvent key).data = (patchEvent key).data := congrArg String.data h
  simp [setEvent, patchEvent, String.data_append] at h2

/-- Claim C7: for every state S, effect queue and action, the transition
with a SET action for the key returns the action data wholesale with an
empty effect queue, and the transition with a PATCH action carrying a
patch array returns the fold of the patch operations over a structural
deep clone of S (and the clone is the structurally identical tree), again
with an empty effect queue; neither branch transmits anything. -/
theorem transition_set_patch (key : String)
    (sr : Option (JValue → Synced.Action → JValue × List Synced.Effect))
    (S : JValue) (q : List Synced.Effect) (a : Synced.Action) :
    (a.type = setEvent key →
      Synced.wrappedReducer key sr (S, q) a = (a.data, [])) ∧
    (∀ ops, a.type = patchEvent key → a.data = .arr ops →
      Synced.wrappedReducer key sr (S, q) a = (ops.foldl applyReducer (deepClone S), []) ∧
      deepClone S = S) := by
  constructor
  · intro h
    simp [Synced.wrappedReducer, h]
  · intro ops h hd
    refine ⟨?_, deepClone_eq S⟩
    have hne : patchEvent key ≠ setEvent key := fun hh =>
      setEvent_ne_patchEvent key hh.symm
    simp [Synced.wrappedReducer, h, hd, hne]

/-- Claim C7 witness: the SET branch applied to a concrete SET action, and
the PATCH branch applied to a concrete PATCH action carrying an empty
patch, both for the key k with state null and no synced reducer. -/
theorem transition_set_patch_witness :
    ((Synced.Action.mk (setEvent "k") (.num 7)).type = setEvent "k" ∧
      Synced.wrappedReducer "k" none (.null, []) (Synced.Action.mk (setEvent "k") (.num 7))
        = (.num 7, [])) ∧
    ((Synced.Action.mk (patchEvent "k") (.arr [])).type = patchEvent "k" ∧
      (Synced.Action.mk (patchEvent "k") (.arr [])).data = .arr [] ∧
      Synced.wrappedReducer "k" none (.null, []) (Synced.Action.mk (patchEvent "k") (.arr []))
        = (List.foldl applyReducer (deepClone .null) [], []) ∧
      deepClone JValue.null = .null) :=
  ⟨⟨rfl, (transition_set_patch "k" none .null []
      (Synced.Action.mk (setEvent "k") (.num 7))).1 rfl⟩,
   rfl, rfl,
   (transition_set_patch "k" none .null []
      (Synced.Action.mk (patchEvent "k") (.arr []))).2 [] rfl rfl⟩

/-- The coordinator of the counter scenario before the call: key counter,
no synced reducer, state mapping count to 0, empty effect queue. -/
def counterCoordinator : Synced.Coordinator :=
  { key := "counter", syncedReducer := none, state := .obj [("count", .num 0)], effects := [] }

/-- A session whose socket is attached and OPEN. -/
def openSession : Session :=
  { Session.create "ws://x" with readyState := some wsOPEN }

/-- Claim C2 counterexample: the single frame syncCount(5) sends carries
its patch operation kind under the key op (the JSON Patch field name the
source and its patch library use), which differs from the frame the claim
states, whose operation object uses the key operation. -/
theorem syncCount_frame_counterexample :
    (Synced.Coordinator.syncer counterCoordinator openSession "count" (.num 5)).2
      = [Output.wsSend (.obj [("type", .str "_PATCH:counter"),
          ("data", .arr [.obj [("op", .str "replace"), ("path", .str "/count"),
            ("value", .num 5)]])])] ∧
    (JValue.obj [("type", .str "_PATCH:counter"),
        ("data", .arr [.obj [("op", .str "replace"), ("path", .str "/count"),
          ("value", .num 5)]])])
      ≠ .obj [("type", .str "_PATCH:counter"),
          ("data", .arr [.obj [("operation", .str "replace"), ("path", .str "/count"),
            ("value", .num 5)]])] := by
  refine ⟨rfl, ?_⟩
  simp

/-- Claim C2 (corrected): on the coordinator over the key counter with
initial state mapping count to 0 and a connected session, syncCount(5)
updates the local state to count 5, queues no effects, and sends exactly
one outbound text frame, the PATCH frame whose single replace operation
is keyed op (not operation) as the patch library serializes it. -/
theorem syncCount_updates_and_sends :
    (Synced.Coordinator.syncer counterCoordinator openSession "count" (.num 5)).1.state
      = .obj [("count", .num 5)] ∧
    (Synced.Coordinator.syncer counterCoordinator openSession "count" (.num 5)).1.effects
      = [] ∧
    (Synced.Coordinator.syncer counterCoordinator openSession "count" (.num 5)).2
      = [Output.wsSend (.obj [("type", .str "_PATCH:counter"),
          ("data", .arr [.obj [("op", .str "replace"), ("path", .str "/count"),
            ("value", .num 5)]])])] := by
  refine ⟨?_, rfl, rfl⟩
  have h := deepClone_eq (JValue.obj [("count", JValue.num 0)])
  calc (Synced.Coordinator.syncer counterCoordinator openSession "count" (.num 5)).1.state
      = List.foldl applyReducer (deepClone (JValue.obj [("count", JValue.num 0)]))
          [JValue.obj [("op", JValue.str "replace"), ("path", JValue.str "/count"),
            ("value", JValue.num 5)]] := rfl
    _ = List.foldl applyReducer (JValue.obj [("count", JValue.num 0)])
          [JValue.obj [("op", JValue.str "replace"), ("path", JValue.str "/count"),
            ("value", JValue.num 5)]] := by rw [h]
    _ = JValue.obj [("count", JValue.num 5)] := rfl

/-- Claim C8: on a session with an OPEN socket and the GET event of the
counter key registered, receiving the GET frame dispatches exactly one
handler call and leaves the session unchanged; the coordinator handler
for that event, holding state count 5, replies with exactly one SET frame
carrying the current snapshot and leaves the coordinator (hence the local
state) unchanged. -/
theorem get_replies_with_snapshot (s : Session) (c : Synced.Coordinator)
    (hk : c.key = "counter") (hs : c.state = .obj [("count", .num 5)])
    (hreg : s.eventHandlers.contains "_GET:counter" = true)
    (hopen : s.readyState = some wsOPEN) :
    Session.handleReceiveEvent s (.text "_GET:counter" (.obj []))
      = (s, [Output.handlerCall "_GET:counter" (.obj [])]) ∧
    Synced.Coordinator.onGetEvent c s
      = (c, [Output.wsSend (.obj [("type", .str "_SET:counter"),
          ("data", .obj [("count", .num 5)])])]) := by
  constructor
  · have hmem : "_GET:counter" ∈ s.eventHandlers := by simpa using hreg
    simp [Session.handleReceiveEvent, hmem]
  · simp [Synced.Coordinator.onGetEvent, Synced.Coordinator.sendState, Session.send,
      hk, hs, hopen, setEvent, mkFrame]

/-- A concrete session with an OPEN socket and the counter GET event
registered, used to witness the snapshot reply. -/
def getRegisteredSession : Session :=
  { Session.create "u" with
    eventHandlers := ["_GET:counter"]
    readyState := some wsOPEN }

/-- The counter coordinator holding the snapshot count 5. -/
def counterAtFive : Synced.Coordinator :=
  { key := "counter", syncedReducer := none, state := .obj [("count", .num 5)], effects := [] }

/-- Claim C8 witness: the snapshot reply on the concrete session and
coordinator of the scenario. -/
theorem get_replies_with_snapshot_witness :
    counterAtFive.key = "counter" ∧
    counterAtFive.state = .obj [("count", .num 5)] ∧
    getRegisteredSession.eventHandlers.contains "_GET:counter" = true ∧
    getRegisteredSession.readyState = some wsOPEN ∧
    (Session.handleReceiveEvent getRegisteredSession (.text "_GET:counter" (.obj []))
      = (getRegisteredSession, [Output.handlerCall "_GET:counter" (.obj [])]) ∧
    Synced.Coordinator.onGetEvent counterAtFive getRegisteredSession
      = (counterAtFive, [Output.wsSend (.obj [("type", .str "_SET:counter"),
          ("data", .obj [("count", .num 5)])])])) :=
  ⟨rfl, rfl, rfl, rfl,
   get_replies_with_snapshot getRegisteredSession counterAtFive rfl rfl rfl rfl⟩
